import Mathlib

/-
  Shallow embedding of lumasepa/kube-apiserver-lb.

  The repository holds several revisions of the same single-file Go load
  balancer.  They are embedded side by side:

  * namespace V0   — src/main.go: selector without cursor increment, `forward`
    built on log.Fatalf, probe issued with http.Get (default client).
  * namespace Chan — the channel-based revision in src/unnamed/part_001
    (second document): chooseHealthyRemote / chooseRemote fallback,
    removeHealthyRemote over an explicit healthy list, acceptAsChan.
  * namespace Lock — the RWMutex revision in src/unnamed/part_002:
    chooseRemote guarded by a read lock, removeHealthyRemote and the monitor
    write under the write lock.

  Conventions: Go machine integers that are only ever incremented from 1
  (rrCounter) are modelled as Nat; Go slice indexing, which panics when out
  of range, is modelled with List getElem? and a distinguished
  SelErr.indexOutOfRange outcome; the health probe (an HTTPS GET) is an
  oracle `probe : String -> Option Nat` returning none for a transport
  error and some status for a response.
-/

set_option linter.unusedVariables false

/-- Failure outcomes of the selectors.  noHealthy is the
"No remote servers are Healthy" error, noRemotes the "no remote servers"
error of the fallback; indexOutOfRange models the Go panic that an
out-of-range slice index would raise (proved unreachable below). -/
inductive SelErr where
  | noHealthy
  | noRemotes
  | indexOutOfRange
deriving DecidableEq, Repr

/-- Outcome of handling one accepted connection inside the Start loop. -/
inductive ConnAction where
  | dropConn
  | forwardConn (remote : String)
deriving DecidableEq, Repr

/-- Reasons Start returns an error: net.Listen failing, or listener.Accept
failing inside the loop. -/
inductive StartErr where
  | listenError
  | acceptError
deriving DecidableEq, Repr

/-- Health-probe success test shared by every revision of
startHealthChecks: err == nil && resp.StatusCode == 200. -/
def probeSucceeds (probe : String → Option Nat) (server : String) : Bool :=
  match probe server with
  | some status => status == 200
  | none => false

/-- One monitor tick of startHealthChecks: the loop over RemoteServers that
appends exactly the servers whose probe succeeded, i.e. a filter of the
configured list.  Identical in every revision. -/
def newHealthySet (remoteServers : List String) (probe : String → Option Nat) : List String :=
  remoteServers.filter (probeSucceeds probe)

/-- Static configuration of the HTTP client used for health probes. -/
structure HttpClientConfig where
  insecureSkipVerify : Bool
  timeoutSeconds : Option Nat
deriving DecidableEq, Repr

/-- Client built in main() of part_001 and part_002: Transport with
TLSClientConfig InsecureSkipVerify true and Timeout 5 seconds. -/
def lockMainClient : HttpClientConfig :=
  { insecureSkipVerify := true, timeoutSeconds := some 5 }

/-- Client used by startHealthChecks in src/main.go: plain http.Get, i.e.
Go's DefaultClient — no Timeout and ordinary certificate verification
(the source carries the comment TODO add timeout). -/
def v0ProbeClient : HttpClientConfig :=
  { insecureSkipVerify := false, timeoutSeconds := none }

namespace Chan

/-- State of the channel-based apiServerLb (part_001, second document):
only the configured server list and the round-robin counter live on the
struct; the healthy list is a loop-local value fed by a channel. -/
structure Lb where
  remoteServers : List String
  rrCounter : Nat
deriving DecidableEq, Repr

/-- chooseHealthyRemote of part_001: emptiness guard, pick at
rrCounter mod len, then increment the counter. -/
def chooseHealthyRemote (lb : Lb) (healthyServers : List String) :
    Except SelErr String × Lb :=
  let numberOfHealthyRemotes := healthyServers.length
  if numberOfHealthyRemotes = 0 then
    (Except.error SelErr.noHealthy, lb)
  else
    match healthyServers[lb.rrCounter % numberOfHealthyRemotes]? with
    | some picked => (Except.ok picked, { lb with rrCounter := lb.rrCounter + 1 })
    | none => (Except.error SelErr.indexOutOfRange, lb)

/-- chooseRemote of part_001 (the selectAny fallback): same selection over
the full configured RemoteServers list, ignoring health. -/
def chooseRemote (lb : Lb) : Except SelErr String × Lb :=
  let numberOfRemotes := lb.remoteServers.length
  if numberOfRemotes = 0 then
    (Except.error SelErr.noRemotes, lb)
  else
    match lb.remoteServers[lb.rrCounter % numberOfRemotes]? with
    | some picked => (Except.ok picked, { lb with rrCounter := lb.rrCounter + 1 })
    | none => (Except.error SelErr.indexOutOfRange, lb)

/-- removeHealthyRemote of part_001: rebuilds the healthy list keeping
exactly the servers different from the failed remote. -/
def removeHealthyRemote (healthyServers : List String) (remote : String) : List String :=
  healthyServers.filter (fun server => server != remote)

/-- The selection step of Start in part_001: try chooseHealthyRemote, and
only on its error fall back to chooseRemote (the state is unchanged by a
failed chooseHealthyRemote, so the fallback sees the same counter). -/
def selectRemote (lb : Lb) (healthyServers : List String) :
    Except SelErr String × Lb :=
  match chooseHealthyRemote lb healthyServers with
  | (Except.ok remote, lb1) => (Except.ok remote, lb1)
  | (Except.error _, lb1) => chooseRemote lb1

/-- What one iteration of acceptAsChan does after listener.Accept returns:
on error it only logs, and in every case it sends the accepted value
(nil when Accept failed) into the channel and keeps looping; the loop has
no terminating branch. -/
inductive AcceptOutcome where
  | stopLoop
  | sendAndContinue (connIsNil : Bool)
deriving DecidableEq, Repr

/-- acceptAsChan loop body of part_001: always sendAndContinue, with a nil
connection exactly when Accept failed. -/
def acceptAsChanBody (acceptFailed : Bool) : AcceptOutcome :=
  AcceptOutcome.sendAndContinue acceptFailed

end Chan

namespace Lock

/-- State of the RWMutex apiServerLb of part_002.  readLocks counts the
read-side holders of HealthyServersLock (RLock adds one, RUnlock removes
one); the monitor and removeHealthyRemote need the write side, which an
RWMutex only grants when no reader is outstanding. -/
structure Lb where
  remoteServers : List String
  healthyServers : List String
  rrCounter : Nat
  readLocks : Nat
deriving DecidableEq, Repr

/-- The write side of HealthyServersLock can be acquired only when no read
lock is outstanding. -/
def writeLockFree (lb : Lb) : Prop := lb.readLocks = 0

/-- The lb value built by main() in part_002: empty healthy list, counter
starting at 1, lock free. -/
def init (remoteServers : List String) : Lb :=
  { remoteServers := remoteServers, healthyServers := [], rrCounter := 1, readLocks := 0 }

/-- chooseRemote of part_002, lock effects included.  Faithful to the
source: RLock at entry; the empty branch returns WITHOUT RUnlock; the
success branch indexes at rrCounter mod len, RUnlocks and returns; the
counter is never incremented in this revision. -/
def chooseRemote (lb : Lb) : Except SelErr String × Lb :=
  let locked : Lb := { lb with readLocks := lb.readLocks + 1 }
  let numberOfHealthyRemotes := locked.healthyServers.length
  if numberOfHealthyRemotes = 0 then
    (Except.error SelErr.noHealthy, locked)
  else
    match locked.healthyServers[locked.rrCounter % numberOfHealthyRemotes]? with
    | some picked => (Except.ok picked, { locked with readLocks := locked.readLocks - 1 })
    | none => (Except.error SelErr.indexOutOfRange, locked)

/-- removeHealthyRemote of part_002: under the write lock (taken and
released inside, so the net lock state is unchanged), keeps exactly the
healthy servers different from the failed remote. -/
def removeHealthyRemote (lb : Lb) (remote : String) : Lb :=
  { lb with healthyServers := lb.healthyServers.filter (fun server => server != remote) }

/-- One tick of startHealthChecks in part_002: probe every configured
server and install the filtered list wholesale under the write lock. -/
def monitorTick (lb : Lb) (probe : String → Option Nat) : Lb :=
  { lb with healthyServers := newHealthySet lb.remoteServers probe }

/-- The per-connection part of the Start loop in part_002: chooseRemote;
on its error, log and continue; on dial failure, removeHealthyRemote the
picked backend and continue; otherwise hand off to forward. -/
def handleConn (lb : Lb) (dialOk : String → Bool) : ConnAction × Lb :=
  match chooseRemote lb with
  | (Except.error _, lb1) => (ConnAction.dropConn, lb1)
  | (Except.ok remote, lb1) =>
    if dialOk remote then (ConnAction.forwardConn remote, lb1)
    else (ConnAction.dropConn, removeHealthyRemote lb1 remote)

/-- The accept loop of Start in part_002, run over a finite trace of
accept events: none is a failed Accept (log, return the error — the
instance is abandoned), some dialOk an accepted connection together with
the dial oracle for it. -/
def startLoop : Lb → List (Option (String → Bool)) → Option StartErr × Lb
  | lb, [] => (none, lb)
  | lb, none :: _ => (some StartErr.acceptError, lb)
  | lb, some dialOk :: rest => startLoop (handleConn lb dialOk).2 rest

/-- Start of part_002: net.Listen first — on bind failure return the
error — then the accept loop.  The monitor goroutine is modelled
separately (monitorTick inside Reach). -/
def Start (lb : Lb) (listenOk : Bool) (events : List (Option (String → Bool))) :
    Option StartErr × Lb :=
  if listenOk then startLoop lb events else (some StartErr.listenError, lb)

/-- States of the part_002 lb reachable from the initial state under the
operations that touch the healthy set: monitor ticks with an arbitrary
probe outcome, connection handling with an arbitrary dial outcome, and
direct removals. -/
inductive Reach (remotes : List String) : Lb → Prop
  | init : Reach remotes (init remotes)
  | tick (lb : Lb) (probe : String → Option Nat) :
      Reach remotes lb → Reach remotes (monitorTick lb probe)
  | conn (lb : Lb) (dialOk : String → Bool) :
      Reach remotes lb → Reach remotes (handleConn lb dialOk).2
  | remove (lb : Lb) (remote : String) :
      Reach remotes lb → Reach remotes (removeHealthyRemote lb remote)

end Lock

namespace V0

/-- State of the apiServerLb of src/main.go (no lock, no channel). -/
structure Lb where
  remoteServers : List String
  healthyServers : List String
  rrCounter : Nat
deriving DecidableEq, Repr

/-- chooseRemote of src/main.go: emptiness guard, pick at rrCounter mod
len; no state is mutated (in particular the counter is not incremented). -/
def chooseRemote (lb : Lb) : Except SelErr String :=
  let numberOfHealthyRemotes := lb.healthyServers.length
  if numberOfHealthyRemotes = 0 then
    Except.error SelErr.noHealthy
  else
    match lb.healthyServers[lb.rrCounter % numberOfHealthyRemotes]? with
    | some picked => Except.ok picked
    | none => Except.error SelErr.indexOutOfRange

/-- The per-connection part of the Start loop in src/main.go: on selection
error or dial error it only logs and continues; the healthy list is left
untouched in every branch. -/
def handleConn (lb : Lb) (dialOk : String → Bool) : ConnAction × Lb :=
  match chooseRemote lb with
  | Except.error _ => (ConnAction.dropConn, lb)
  | Except.ok remote =>
    if dialOk remote then (ConnAction.forwardConn remote, lb)
    else (ConnAction.dropConn, lb)

end V0

/-- The two sockets a copyConn direction can close: its writer argument
and its reader argument (the peer of the pair). -/
inductive Sock where
  | writer
  | reader
deriving DecidableEq, Repr

/-- Observable result of running one copyConn direction to completion:
which sockets had Close invoked on them (in order), whether the process
was terminated (log.Fatalf), and how many errors were logged without
terminating. -/
structure CopyRun where
  closed : List Sock
  fatal : Bool
  logged : Nat
deriving DecidableEq, Repr

/-- copyConn of src/main.go: an io.Copy error hits log.Fatalf (process
exits, nothing closed); otherwise writer.Close is invoked, and a close
error also hits log.Fatalf; the reader is never closed by this
direction. -/
def copyConnV0 (copyErr : Bool) (closeErr : Bool) : CopyRun :=
  if copyErr then { closed := [], fatal := true, logged := 0 }
  else if closeErr then { closed := [Sock.writer], fatal := true, logged := 0 }
  else { closed := [Sock.writer], fatal := false, logged := 0 }

/-- copyConn of part_001/part_002: deferred CloseAndLog on both the writer
and the reader run unconditionally (reader first, LIFO defer order); a
copy error and any close errors are logged; nothing is fatal. -/
def copyConn (copyErr : Bool) (closeWriterErr : Bool) (closeReaderErr : Bool) : CopyRun :=
  { closed := [Sock.reader, Sock.writer]
    fatal := false
    logged := (if copyErr then 1 else 0) + (if closeReaderErr then 1 else 0) +
      (if closeWriterErr then 1 else 0) }

-- Sanity checks of the embedding on concrete values.
example :
    (Chan.chooseHealthyRemote { remoteServers := [], rrCounter := 0 } ["x", "y", "z"]).1 =
      Except.ok "x" := rfl

example :
    ((Chan.chooseHealthyRemote { remoteServers := [], rrCounter := 3 } ["x", "y"]).2).rrCounter =
      4 := rfl

example : Chan.removeHealthyRemote ["x", "y", "x"] "x" = ["y"] := rfl

example :
    (Lock.chooseRemote (Lock.init ["x"])).1 = Except.error SelErr.noHealthy := rfl

example :
    ((Lock.chooseRemote (Lock.init ["x"])).2).readLocks = 1 := rfl

example :
    (Lock.monitorTick (Lock.init ["x", "y"]) (fun s => if s == "x" then some 200 else some 500)).healthyServers = ["x"] := rfl

namespace Chan

/-- On a non-empty healthy list, chooseHealthyRemote picks the element at
rrCounter mod length and increments the counter. -/
theorem chooseHealthyRemote_nonempty_eq (lb : Lb) (hs : List String) (h : hs ≠ []) :
    chooseHealthyRemote lb hs =
      (Except.ok (hs.get ⟨lb.rrCounter % hs.length, Nat.mod_lt _ (List.length_pos.mpr h)⟩),
       { lb with rrCounter := lb.rrCounter + 1 }) := by
  have hlen : hs.length ≠ 0 := by simpa using h
  unfold chooseHealthyRemote
  rw [if_neg hlen,
    List.getElem?_eq_getElem (Nat.mod_lt _ (Nat.pos_of_ne_zero hlen))]
  simp [List.get_eq_getElem]

/-- On a non-empty configured list, the fallback chooseRemote picks the
element at rrCounter mod length and increments the counter. -/
theorem chooseRemote_nonempty_eq (lb : Lb) (h : lb.remoteServers ≠ []) :
    chooseRemote lb =
      (Except.ok (lb.remoteServers.get
          ⟨lb.rrCounter % lb.remoteServers.length, Nat.mod_lt _ (List.length_pos.mpr h)⟩),
       { lb with rrCounter := lb.rrCounter + 1 }) := by
  have hlen : lb.remoteServers.length ≠ 0 := by simpa using h
  unfold chooseRemote
  rw [if_neg hlen,
    List.getElem?_eq_getElem (Nat.mod_lt _ (Nat.pos_of_ne_zero hlen))]
  simp [List.get_eq_getElem]

end Chan

namespace Lock

/-- On an empty healthy list, chooseRemote of part_002 returns the
noHealthy error with the read lock still held. -/
theorem chooseRemote_empty_eq (lb : Lb) (h : lb.healthyServers = []) :
    chooseRemote lb =
      (Except.error SelErr.noHealthy, { lb with readLocks := lb.readLocks + 1 }) := by
  unfold chooseRemote
  simp [h]

/-- On a non-empty healthy list, chooseRemote of part_002 returns the
element at rrCounter mod length and restores the state exactly: the read
lock is released and the counter is left unchanged. -/
theorem chooseRemote_healthy_nonempty_eq (lb : Lb) (h : lb.healthyServers ≠ []) :
    chooseRemote lb =
      (Except.ok (lb.healthyServers.get
          ⟨lb.rrCounter % lb.healthyServers.length, Nat.mod_lt _ (List.length_pos.mpr h)⟩),
       lb) := by
  have hlen : lb.healthyServers.length ≠ 0 := by simpa using h
  unfold chooseRemote
  rw [if_neg hlen,
    List.getElem?_eq_getElem (Nat.mod_lt _ (Nat.pos_of_ne_zero hlen))]
  simp [List.get_eq_getElem]

/-- A successful chooseRemote returns a member of the healthy list. -/
theorem chooseRemote_ok_mem {lb : Lb} {r : String}
    (h : (chooseRemote lb).1 = Except.ok r) : r ∈ lb.healthyServers := by
  by_cases h0 : lb.healthyServers = []
  · rw [chooseRemote_empty_eq lb h0] at h
    exact absurd h (by simp)
  · rw [chooseRemote_healthy_nonempty_eq lb h0] at h
    simp only [Except.ok.injEq] at h
    rw [← h]
    exact List.get_mem _ _ _

/-- chooseRemote never changes the healthy list, the configured list or
the counter (only the lock state). -/
theorem chooseRemote_state (lb : Lb) :
    ((chooseRemote lb).2).healthyServers = lb.healthyServers ∧
    ((chooseRemote lb).2).remoteServers = lb.remoteServers ∧
    ((chooseRemote lb).2).rrCounter = lb.rrCounter := by
  by_cases h0 : lb.healthyServers = []
  · rw [chooseRemote_empty_eq lb h0]
    exact ⟨rfl, rfl, rfl⟩
  · rw [chooseRemote_healthy_nonempty_eq lb h0]
    exact ⟨rfl, rfl, rfl⟩

/-- handleConn only shrinks the healthy list and never touches the
configured list. -/
theorem handleConn_state (lb : Lb) (dialOk : String → Bool) :
    ((handleConn lb dialOk).2).healthyServers ⊆ lb.healthyServers ∧
    ((handleConn lb dialOk).2).remoteServers = lb.remoteServers := by
  unfold handleConn
  rcases hc : chooseRemote lb with ⟨res, lb1⟩
  have hstate := chooseRemote_state lb
  rw [hc] at hstate
  cases res with
  | error e =>
    refine ⟨?_, hstate.2.1⟩
    rw [hstate.1]
    exact List.Subset.refl _
  | ok remote =>
    by_cases hd : dialOk remote
    · simp only [hd, if_true]
      refine ⟨?_, hstate.2.1⟩
      rw [hstate.1]
      exact List.Subset.refl _
    · simp only [hd, if_false]
      unfold removeHealthyRemote
      refine ⟨?_, hstate.2.1⟩
      intro a ha
      rw [← hstate.1]
      exact (List.mem_filter.mp ha).1

end Lock

/-- Concrete part_002 state for exercising chooseRemote twice. -/
def lockPairC1 : Lock.Lb :=
  { remoteServers := ["a", "b"], healthyServers := ["a", "b"], rrCounter := 1, readLocks := 0 }

/-- C1: false on part_002.  chooseRemote of part_002 never increments
rrCounter, so with the healthy list ["a", "b"] and cursor 1 two
consecutive calls both return "b" and leave the cursor at 1, instead of
visiting each element once and incrementing the shared cursor per
successful selection as the claim states. -/
theorem lock_chooseRemote_is_not_round_robin :
    (Lock.chooseRemote lockPairC1).1 = Except.ok "b" ∧
    (Lock.chooseRemote (Lock.chooseRemote lockPairC1).2).1 = Except.ok "b" ∧
    ((Lock.chooseRemote (Lock.chooseRemote lockPairC1).2).2).rrCounter = lockPairC1.rrCounter :=
  ⟨rfl, rfl, rfl⟩

/-- C2: both selectHealthy implementations (chooseHealthyRemote of
part_001 and chooseRemote of part_002) guard the empty healthy set: they
return the noHealthy error there, and no input whatsoever can reach an
out-of-range index (the modulo is only taken against a non-zero size). -/
theorem selectHealthy_empty_is_guarded :
    (∀ lb : Chan.Lb, (Chan.chooseHealthyRemote lb []).1 = Except.error SelErr.noHealthy) ∧
    (∀ (lb : Chan.Lb) (hs : List String),
      (Chan.chooseHealthyRemote lb hs).1 ≠ Except.error SelErr.indexOutOfRange) ∧
    (∀ lb : Lock.Lb, lb.healthyServers = [] →
      (Lock.chooseRemote lb).1 = Except.error SelErr.noHealthy) ∧
    (∀ lb : Lock.Lb, (Lock.chooseRemote lb).1 ≠ Except.error SelErr.indexOutOfRange) := by
  refine ⟨fun lb => rfl, ?_, ?_, ?_⟩
  · intro lb hs
    by_cases h : hs = []
    · subst h
      simp [Chan.chooseHealthyRemote]
    · rw [Chan.chooseHealthyRemote_nonempty_eq lb hs h]
      simp
  · intro lb h
    rw [Lock.chooseRemote_empty_eq lb h]
  · intro lb
    by_cases h : lb.healthyServers = []
    · rw [Lock.chooseRemote_empty_eq lb h]
      simp
    · rw [Lock.chooseRemote_healthy_nonempty_eq lb h]
      simp

/-- Witness for C2 at a concrete empty-set state. -/
theorem selectHealthy_empty_is_guarded_witness :
    (Lock.chooseRemote (Lock.init ["a"])).1 = Except.error SelErr.noHealthy :=
  selectHealthy_empty_is_guarded.2.2.1 (Lock.init ["a"]) rfl

/-- Concrete part_002 state with no healthy backend and the lock free. -/
def lockEmptyC10 : Lock.Lb := Lock.init ["a"]

/-- Concrete part_002 state with healthy backends and the lock free. -/
def lockPairC10 : Lock.Lb :=
  { remoteServers := ["a", "b"], healthyServers := ["a", "b"], rrCounter := 0, readLocks := 0 }

/-- C10: false on part_002.  chooseRemote takes the read lock and, on the
empty-set error path, returns without releasing it, so the write lock
needed by the monitor and removeHealthyRemote can never be acquired
afterwards; only the success path restores the lock. -/
theorem lock_chooseRemote_leaks_read_lock :
    ((Lock.chooseRemote lockEmptyC10).2).readLocks = 1 ∧
    ¬ Lock.writeLockFree (Lock.chooseRemote lockEmptyC10).2 ∧
    ((Lock.chooseRemote lockPairC10).2).readLocks = lockPairC10.readLocks := by
  refine ⟨rfl, ?_, rfl⟩
  show ((Lock.chooseRemote lockEmptyC10).2).readLocks ≠ 0
  decide

/-- A probe counts as success exactly when it returned a response with
status 200. -/
theorem probeSucceeds_iff (probe : String → Option Nat) (server : String) :
    probeSucceeds probe server = true ↔ probe server = some 200 := by
  unfold probeSucceeds
  cases h : probe server with
  | none => simp
  | some status => simp

/-- Concrete part_001 state for the fallback witness. -/
def chanPairC3 : Chan.Lb := { remoteServers := ["x", "y"], rrCounter := 0 }

/-- C3: in the part_001 Start loop, the fallback chooseRemote (selectAny)
runs only when chooseHealthyRemote failed — with a non-empty healthy list
the selection is exactly chooseHealthyRemote and with the empty healthy
list it is exactly the fallback; the fallback does the same round-robin
pick over the full configured list (incrementing the counter) and errors
with noRemotes exactly when the configured list is empty. -/
theorem selectAny_two_tier_fallback :
    (∀ (lb : Chan.Lb) (hs : List String), hs ≠ [] →
      Chan.selectRemote lb hs = Chan.chooseHealthyRemote lb hs) ∧
    (∀ lb : Chan.Lb, Chan.selectRemote lb [] = Chan.chooseRemote lb) ∧
    (∀ lb : Chan.Lb,
      (Chan.chooseRemote lb).1 = Except.error SelErr.noRemotes ↔ lb.remoteServers = []) ∧
    (∀ (lb : Chan.Lb) (h : lb.remoteServers ≠ []),
      (Chan.chooseRemote lb).1 = Except.ok (lb.remoteServers.get
        ⟨lb.rrCounter % lb.remoteServers.length, Nat.mod_lt _ (List.length_pos.mpr h)⟩) ∧
      ((Chan.chooseRemote lb).2).rrCounter = lb.rrCounter + 1) := by
  refine ⟨?_, ?_, ?_, ?_⟩
  · intro lb hs h
    unfold Chan.selectRemote
    rw [Chan.chooseHealthyRemote_nonempty_eq lb hs h]
  · intro lb
    rfl
  · intro lb
    constructor
    · intro h
      by_cases h0 : lb.remoteServers = []
      · exact h0
      · rw [Chan.chooseRemote_nonempty_eq lb h0] at h
        exact absurd h (by simp)
    · intro h0
      unfold Chan.chooseRemote
      simp [h0]
  · intro lb h
    rw [Chan.chooseRemote_nonempty_eq lb h]
    exact ⟨rfl, rfl⟩

/-- Witness for C3 at concrete states: a non-empty healthy list bypasses
the fallback, and on an empty healthy list the fallback picks the first
configured backend. -/
theorem selectAny_two_tier_fallback_witness :
    Chan.selectRemote chanPairC3 ["h"] = Chan.chooseHealthyRemote chanPairC3 ["h"] ∧
    (Chan.chooseRemote chanPairC3).1 = Except.ok "x" := by
  constructor
  · exact selectAny_two_tier_fallback.1 chanPairC3 ["h"] (by decide)
  · exact (selectAny_two_tier_fallback.2.2.2 chanPairC3 (by decide)).1

/-- C4: on every monitor tick a configured backend joins the new healthy
set exactly when its probe returned a response with status 200, and the
monitor installs the new set wholesale (it is a function of the
configured list and the probe outcomes only, never of the previous set).
The claim is wrong about the probe client of src/main.go, which calls
http.Get — the default client — so certificate validation stays on and no
request timeout is enforced (the source marks this with TODO add
timeout); only the part_001/part_002 client skips validation with a
5-second timeout. -/
theorem v0_probe_client_and_healthy_tick :
    v0ProbeClient.timeoutSeconds = none ∧
    v0ProbeClient.insecureSkipVerify = false ∧
    lockMainClient = { insecureSkipVerify := true, timeoutSeconds := some 5 } ∧
    (∀ (remotes : List String) (probe : String → Option Nat) (server : String),
      server ∈ newHealthySet remotes probe ↔ server ∈ remotes ∧ probe server = some 200) ∧
    (∀ (lb : Lock.Lb) (probe : String → Option Nat),
      (Lock.monitorTick lb probe).healthyServers = newHealthySet lb.remoteServers probe) := by
  refine ⟨rfl, rfl, rfl, ?_, fun lb probe => rfl⟩
  intro remotes probe server
  unfold newHealthySet
  rw [List.mem_filter, probeSucceeds_iff]

/-- Witness for C4 at a concrete tick: with a probe answering 200 for
everything, a configured backend is in the published set. -/
theorem v0_probe_client_and_healthy_tick_witness :
    "a" ∈ newHealthySet ["a", "b"] (fun _ => some 200) :=
  (v0_probe_client_and_healthy_tick.2.2.2.1 ["a", "b"] (fun _ => some 200) "a").mpr
    ⟨by decide, rfl⟩

/-- C5: the copyConn of src/main.go terminates the whole process through
log.Fatalf on a copy error and on a close error, while the CloseAndLog
revision (part_001/part_002) only logs every copy and close error and is
never fatal, propagating nothing to any caller. -/
theorem v0_forward_fatal_vs_logging :
    (copyConnV0 true false).fatal = true ∧
    (copyConnV0 false true).fatal = true ∧
    (∀ copyErr closeWriterErr closeReaderErr : Bool,
      (copyConn copyErr closeWriterErr closeReaderErr).fatal = false) ∧
    (∀ copyErr closeWriterErr closeReaderErr : Bool,
      (0 < (copyConn copyErr closeWriterErr closeReaderErr).logged ↔
        (copyErr = true ∨ closeWriterErr = true ∨ closeReaderErr = true))) := by
  refine ⟨rfl, rfl, fun a b c => rfl, ?_⟩
  intro copyErr closeWriterErr closeReaderErr
  cases copyErr <;> cases closeWriterErr <;> cases closeReaderErr <;> simp [copyConn]

/-- Witness for C5 at a concrete run: a copy error in the CloseAndLog
revision produces at least one log line (and, per the theorem, no exit). -/
theorem v0_forward_fatal_vs_logging_witness :
    0 < (copyConn true false false).logged :=
  (v0_forward_fatal_vs_logging.2.2.2 true false false).mpr (Or.inl rfl)

/-- C6: false on src/main.go.  There a copy direction that completes
without error closes only its writer argument — the reader (the peer
socket) is never closed by that direction — and on a copy error the
process exits before any close. -/
theorem v0_copy_leaves_peer_open :
    (copyConnV0 false false).closed = [Sock.writer] ∧
    Sock.reader ∉ (copyConnV0 false false).closed ∧
    (copyConnV0 true false).closed = [] := by
  refine ⟨rfl, ?_, rfl⟩
  decide

/-- C6 as amended: in the part_001/part_002 copyConn both deferred
CloseAndLog calls run on every path, so each direction closes both its
writer and the peer socket whether or not the copy errored. -/
theorem copyConn_closes_both_sockets :
    ∀ copyErr closeWriterErr closeReaderErr : Bool,
      Sock.writer ∈ (copyConn copyErr closeWriterErr closeReaderErr).closed ∧
      Sock.reader ∈ (copyConn copyErr closeWriterErr closeReaderErr).closed := by
  intro copyErr closeWriterErr closeReaderErr
  constructor <;> simp [copyConn]

/-- Concrete src/main.go state where the only healthy backend fails to
dial. -/
def v0SingleC7 : V0.Lb := { remoteServers := ["a"], healthyServers := ["a"], rrCounter := 1 }

/-- C7: false on src/main.go.  Its Start loop only logs a dial failure
and continues — the healthy list is left untouched — so the very next
selection returns the same backend that just failed instead of excluding
it. -/
theorem v0_dial_failure_keeps_failed_backend :
    V0.handleConn v0SingleC7 (fun _ => false) = (ConnAction.dropConn, v0SingleC7) ∧
    V0.chooseRemote v0SingleC7 = Except.ok "a" :=
  ⟨rfl, rfl⟩

/-- C7 as amended for part_002: a dial failure on the selected backend
immediately removes every occurrence of it from the live healthy list,
and any next successful selection over the pruned list returns a
different backend. -/
theorem lock_dial_failure_prunes_healthy :
    (∀ (lb : Lock.Lb) (remote : String),
      remote ∉ (Lock.removeHealthyRemote lb remote).healthyServers) ∧
    (∀ (lb : Lock.Lb) (dialOk : String → Bool) (remote : String),
      (Lock.chooseRemote lb).1 = Except.ok remote → dialOk remote = false →
      Lock.handleConn lb dialOk =
        (ConnAction.dropConn, Lock.removeHealthyRemote (Lock.chooseRemote lb).2 remote)) ∧
    (∀ (lb : Lock.Lb) (remote r : String),
      (Lock.chooseRemote (Lock.removeHealthyRemote lb remote)).1 = Except.ok r →
      r ≠ remote) := by
  refine ⟨?_, ?_, ?_⟩
  · intro lb remote hmem
    unfold Lock.removeHealthyRemote at hmem
    simp only [List.mem_filter] at hmem
    exact absurd hmem.2 (by simp)
  · intro lb dialOk remote hok hd
    unfold Lock.handleConn
    rcases hc : Lock.chooseRemote lb with ⟨res, lb1⟩
    rw [hc] at hok
    simp only at hok
    subst hok
    simp [hd]
  · intro lb remote r hok
    have hmem := Lock.chooseRemote_ok_mem hok
    unfold Lock.removeHealthyRemote at hmem
    simp only [List.mem_filter] at hmem
    simpa using hmem.2

/-- Concrete part_002 state for the C7 witness. -/
def lockPairC7 : Lock.Lb :=
  { remoteServers := ["a", "b"], healthyServers := ["a", "b"], rrCounter := 1, readLocks := 0 }

/-- Witness for C7: with healthy list ["a", "b"] and cursor 1 the
selection picks "b"; when the dial to "b" fails the loop drops the
connection and prunes "b", "b" is gone from the pruned list, and the next
selection returns "a", not "b". -/
theorem lock_dial_failure_prunes_healthy_witness :
    Lock.handleConn lockPairC7 (fun _ => false) =
      (ConnAction.dropConn, Lock.removeHealthyRemote lockPairC7 "b") ∧
    "b" ∉ (Lock.removeHealthyRemote lockPairC7 "b").healthyServers ∧
    ("a" : String) ≠ "b" := by
  refine ⟨?_, ?_, ?_⟩
  · exact lock_dial_failure_prunes_healthy.2.1 lockPairC7 (fun _ => false) "b" rfl rfl
  · exact lock_dial_failure_prunes_healthy.1 lockPairC7 "b"
  · exact lock_dial_failure_prunes_healthy.2.2 lockPairC7 "b" "a" rfl

/-- C8: in every state of the part_002 lb reachable from the initial one
under monitor ticks, connection handling and dial-failure removals, the
healthy list is a subset of the configured backend list (which itself
never changes): the monitor only publishes a filter of the configured
list, and removals only shrink the healthy list. -/
theorem healthy_set_subset_of_configured :
    ∀ (remotes : List String) (lb : Lock.Lb), Lock.Reach remotes lb →
      lb.healthyServers ⊆ remotes ∧ lb.remoteServers = remotes := by
  intro remotes lb hreach
  induction hreach with
  | init => exact ⟨List.nil_subset _, rfl⟩
  | tick lb probe hr ih =>
    refine ⟨?_, ih.2⟩
    unfold Lock.monitorTick newHealthySet
    intro a ha
    rw [← ih.2]
    exact (List.mem_filter.mp ha).1
  | conn lb dialOk hr ih =>
    have hs := Lock.handleConn_state lb dialOk
    exact ⟨fun a ha => ih.1 (hs.1 ha), hs.2.trans ih.2⟩
  | remove lb remote hr ih =>
    refine ⟨?_, ih.2⟩
    unfold Lock.removeHealthyRemote
    intro a ha
    exact ih.1 (List.mem_filter.mp ha).1

/-- Witness for C8: after one monitor tick from the initial state over
the configured list ["a", "b"], the published healthy list is inside
["a", "b"]. -/
theorem healthy_set_subset_of_configured_witness :
    (Lock.monitorTick (Lock.init ["a", "b"]) (fun _ => some 200)).healthyServers ⊆
      ["a", "b"] :=
  (healthy_set_subset_of_configured ["a", "b"] _
    (Lock.Reach.tick _ _ Lock.Reach.init)).1

/-- C9: false on the channel revision of part_001.  Its acceptAsChan loop
reacts to a failed Accept by logging only: it still sends the (nil)
connection value into the channel and keeps looping, so an accept failure
never makes Start return an error there. -/
theorem acceptAsChan_ignores_accept_failure :
    Chan.acceptAsChanBody true = Chan.AcceptOutcome.sendAndContinue true ∧
    Chan.acceptAsChanBody true ≠ Chan.AcceptOutcome.stopLoop := by
  refine ⟨rfl, ?_⟩
  decide

/-- C9 as amended for part_002 Start: a bind failure and a failed Accept
each make Start return an error immediately, abandoning the instance,
while a per-connection event only advances the loop to the remaining
events — in particular with no healthy backend the connection is merely
dropped. -/
theorem lock_start_failure_boundaries :
    (∀ (lb : Lock.Lb) (events : List (Option (String → Bool))),
      Lock.Start lb false events = (some StartErr.listenError, lb)) ∧
    (∀ (lb : Lock.Lb) (events : List (Option (String → Bool))),
      Lock.Start lb true (none :: events) = (some StartErr.acceptError, lb)) ∧
    (∀ (lb : Lock.Lb) (dialOk : String → Bool) (events : List (Option (String → Bool))),
      Lock.Start lb true (some dialOk :: events) =
        Lock.startLoop (Lock.handleConn lb dialOk).2 events) ∧
    (∀ (lb : Lock.Lb) (dialOk : String → Bool), lb.healthyServers = [] →
      (Lock.handleConn lb dialOk).1 = ConnAction.dropConn) := by
  refine ⟨fun lb events => rfl, fun lb events => rfl, fun lb dialOk events => rfl, ?_⟩
  intro lb dialOk h
  unfold Lock.handleConn
  rw [Lock.chooseRemote_empty_eq lb h]

/-- Witness for C9 at a concrete state with no healthy backend: the
connection is dropped, not fatal to the loop. -/
theorem lock_start_failure_boundaries_witness :
    (Lock.handleConn (Lock.init ["a"]) (fun _ => true)).1 = ConnAction.dropConn :=
  lock_start_failure_boundaries.2.2.2 (Lock.init ["a"]) (fun _ => true) rfl
